import Mathlib

/-!
Shallow embedding of the chili-disease detection program
(`src/inference_pi.py` and `src/gps/gps_parser.py`) and proofs about it.

Conventions of the embedding:
* Python floats are modelled as rationals (`ℚ`); the only facts the program
  depends on (comparisons with zero, division, modulo) are exact there.
* The mutable module state of the main loop lives in an explicit `RunState`
  record threaded through `processFrame`.
* Fallible operations (Python `%` with a possibly-zero divisor) return
  `Except`; an uncaught exception is recorded in the `crashed` flag, after
  which the loop is dead (the process is unwinding).
* External inputs (grabbed frames, classifier outputs, clock readings, GPS
  serial data) are oracle inputs passed in per iteration.
-/

namespace ChiliPi

/-- Labels the program acts on: `VALID_CLASSES` in `run_inference`
(src/inference_pi.py line 282). -/
def VALID_CLASSES : List String := ["antraknosa", "cabai_normal", "lalat_buah"]

/-- LED GPIO pin mapping `LED_PINS` (src/inference_pi.py lines 41-45). -/
def LED_PINS : List (String × Nat) :=
  [("antraknosa", 17), ("cabai_normal", 27), ("lalat_buah", 22)]

/-- GPS coordinates attached to a logged detection: the `gps_coords` dict
built at lines 303-308 (latitude, longitude, altitude, satellites). -/
structure GpsCoords where
  latitude : ℚ
  longitude : ℚ
  altitude : ℚ
  satellites : Nat
deriving DecidableEq

/-- One detection box returned by the classifier for a frame: the class name
`model.names[int(box.cls[0])]` and the confidence `float(box.conf[0])`. -/
structure Box where
  label : String
  conf : ℚ
deriving DecidableEq

/-- A logged detection event: the `detection_info` dict of lines 310-316,
minus the two wall-clock fields, which no claim mentions. -/
structure DetectionInfo where
  cls : String
  confidence : ℚ
  location : Option GpsCoords
deriving DecidableEq

/-- The `control_leds` function (lines 70-85): every pin is first driven LOW,
then exactly the pins of detected classes that occur in `LED_PINS` are driven
HIGH.  The result is the list of pins left HIGH. -/
def control_leds (detected_classes : List String) : List Nat :=
  detected_classes.filterMap fun class_name => LED_PINS.lookup class_name

/-- The session store: the in-memory `detections_log` list plus the contents
of `current_session.json` (`none` = the file does not exist; it is removed at
startup, lines 161-164). -/
structure SessionState where
  log : List DetectionInfo
  file : Option (List DetectionInfo)
deriving DecidableEq

/-- One sampled append (lines 317-324): `detections_log.append(detection_info)`
followed immediately, in the same iteration, by rewriting
`current_session.json` with the full accumulated log. -/
def sessionAppend (s : SessionState) (info : DetectionInfo) : SessionState :=
  let log := s.log ++ [info]
  { log := log, file := some log }

/-- Python `%` on floats (modelled on ℚ): `a % b = a - b * floor(a / b)`,
raising `ZeroDivisionError` when the divisor is zero. -/
def pyMod (a b : ℚ) : Except String ℚ :=
  if b = 0 then Except.error "ZeroDivisionError"
  else Except.ok (a - b * (Rat.floor (a / b) : ℚ))

/-- The mutable state of the main loop of `run_inference`
(lines 221-228 initialize it; lines 233-353 mutate it). -/
structure RunState where
  frame_count : Nat
  inference_count : Nat
  predict_calls : Nat
  session : SessionState
  published : List DetectionInfo
  detected_classes : List String
  leds_on : List Nat
  fps_display : ℚ
  crashed : Bool
deriving DecidableEq

/-- State at loop entry: counters zero, fresh session (the previous
`current_session.json` was deleted), no publications, LEDs all LOW,
`fps_display = 0`. -/
def initState : RunState :=
  { frame_count := 0, inference_count := 0, predict_calls := 0,
    session := { log := [], file := none }, published := [],
    detected_classes := [], leds_on := [], fps_display := 0, crashed := false }

/-- Per-frame oracle input: the classifier's boxes for the frame, the position
the GPS cache would report while this frame is sampled, and the value of
`time.time() - start_time` observed at line 267. -/
structure FrameInput where
  boxes : List Box
  gps : Option GpsCoords
  elapsed : ℚ
deriving DecidableEq

/-- Python `set.add` on the `detected_classes` set, represented as a
duplicate-free list. -/
def addClass (acc : List String) (c : String) : List String :=
  if c ∈ acc then acc else acc ++ [c]

/-- One iteration of the `for box in detections` loop (lines 285-334):
unknown labels are skipped by the `continue` at line 292; known labels join
`detected_classes`; when `inference_count % 20 == 0` the detection is logged,
the session file rewritten and (with an MQTT client) published. -/
def processBox (mqtt : Bool) (gps : Option GpsCoords) (s : RunState) (b : Box) :
    RunState :=
  if b.label ∈ VALID_CLASSES then
    let s1 : RunState := { s with detected_classes := addClass s.detected_classes b.label }
    if s1.inference_count % 20 = 0 then
      let info : DetectionInfo := { cls := b.label, confidence := b.conf, location := gps }
      { s1 with session := sessionAppend s1.session info,
                published := if mqtt then s1.published ++ [info] else s1.published }
    else s1
  else s

/-- Lines 278-334: `detected_classes = set()` followed by the whole
`for box in detections` loop. -/
def fanoutBoxes (mqtt : Bool) (s : RunState) (inp : FrameInput) : RunState :=
  inp.boxes.foldl (processBox mqtt inp.gps) { s with detected_classes := [] }

/-- Lines 249-260: `inference_count += 1` immediately followed by the
`model.predict(...)` call (one classifier invocation). -/
def inferStage (s : RunState) : RunState :=
  { s with inference_count := s.inference_count + 1,
           predict_calls := s.predict_calls + 1 }

/-- Lines 267-269: `fps_display` is re-estimated only when
`elapsed_time > 0`; otherwise it keeps its previous value. -/
def fpsStage (s : RunState) (elapsed : ℚ) : RunState :=
  if 0 < elapsed
  then { s with fps_display := (s.inference_count : ℚ) / elapsed }
  else s

/-- Line 337: `control_leds(detected_classes)` re-applies the LED outputs
from this frame's detected classes. -/
def ledStage (s : RunState) : RunState :=
  { s with leds_on := control_leds s.detected_classes }

/-- Line 348: the stats check evaluates `inference_count % (5 * fps_display)`
with no guard on the divisor; with `fps_display == 0` the `%` raises
`ZeroDivisionError`, which no handler in the loop catches. -/
def statsStage (s : RunState) : RunState :=
  match pyMod (s.inference_count : ℚ) (5 * s.fps_display) with
  | Except.error _ => { s with crashed := true }
  | Except.ok _ => s

/-- One iteration of the main `while True` loop for one successfully grabbed
frame (lines 233-353).  The frame counter always advances; the process gate
(line 242) skips inference unless `frame_count % frame_skip == 0`; on a
processed frame the classifier runs, FPS is re-estimated, detections are
filtered and fanned out, LEDs are re-applied, and the stats check runs. -/
def processFrame (frame_skip : Nat) (mqtt : Bool) (s : RunState) (inp : FrameInput) :
    RunState :=
  if s.crashed then s
  else
    let s1 : RunState := { s with frame_count := s.frame_count + 1 }
    if s1.frame_count % frame_skip ≠ 0 then s1
    else statsStage (ledStage (fanoutBoxes mqtt (fpsStage (inferStage s1) inp.elapsed) inp))

/-- A run of the loop over the frames the camera delivered, in order. -/
def runFrames (frame_skip : Nat) (mqtt : Bool) (inputs : List FrameInput) : RunState :=
  inputs.foldl (processFrame frame_skip mqtt) initState

/-! ## Shutdown writes (the `finally` block, lines 358-416) -/

/-- Little-endian decimal digits of a natural number (empty for zero). -/
def decDigitsRev : Nat → List Nat
  | 0 => []
  | n + 1 => ((n + 1) % 10) :: decDigitsRev ((n + 1) / 10)
decreasing_by exact Nat.div_lt_self (Nat.succ_pos n) (by omega)

/-- Value of a little-endian decimal digit list (used to show the decimal
rendering below is lossless). -/
def decValRev : List Nat → Nat
  | [] => 0
  | d :: ds => d + 10 * decValRev ds

/-- Decimal rendering of a natural number, as Python's `str(int(...))`
produces it for the timestamp in `f"detections_{int(time.time())}.json"`. -/
def natDecimal (n : Nat) : String :=
  if n = 0 then "0"
  else String.mk (((decDigitsRev n).reverse).map Nat.digitChar)

/-- Name of the archival backup written at shutdown (line 392):
`detections_<t>.json` where `t` is the integer shutdown timestamp. -/
def archiveFileName (t : Nat) : String :=
  "detections_" ++ natDecimal t ++ ".json"

/-- The durable writes the `finally` block performs: the `current_session.json`
rewrite and the timestamp-named backup (`none` = no write happened). -/
structure ShutdownWrites where
  current : Option (List DetectionInfo)
  archive : Option (String × List DetectionInfo)
deriving DecidableEq

/-- Shutdown persistence (lines 380-398): both writes happen only under
`if detections_log:` — a run whose log is empty writes nothing at shutdown. -/
def shutdownWrites (log : List DetectionInfo) (t : Nat) : ShutdownWrites :=
  if log.isEmpty then { current := none, archive := none }
  else { current := some log, archive := some (archiveFileName t, log) }

/-! ## Process outcome and exit code (`run_inference` early return at
lines 208-213, `main` at lines 418-451) -/

/-- How `run_inference` ends.  The Python function returns `None` on every
path; the constructors record which path was taken.  `cameraFailure` is the
early `return` after `setup_camera` yields no camera (lines 211-213);
`finished` is the path through the main loop and the `finally` block. -/
inductive RunOutcome where
  | cameraFailure : RunOutcome
  | finished : RunState → RunOutcome
deriving DecidableEq

/-- `run_inference` for a given camera availability and frame oracle. -/
def run_inference (frame_skip : Nat) (mqtt : Bool) (cameraOk : Bool)
    (inputs : List FrameInput) : RunOutcome :=
  if cameraOk then RunOutcome.finished (runFrames frame_skip mqtt inputs)
  else RunOutcome.cameraFailure

/-- Exit status of the process.  `main` (lines 418-451) calls `run_inference`,
ignores its result and returns; no path calls `sys.exit`, so the interpreter
exits 0 — including after a camera-acquisition failure.  The only nonzero
exit is an uncaught exception unwinding out of the loop (the
`ZeroDivisionError` of the stats check; `KeyboardInterrupt` is caught at
line 355). -/
def mainExitCode (frame_skip : Nat) (mqtt : Bool) (cameraOk : Bool)
    (inputs : List FrameInput) : Nat :=
  match run_inference frame_skip mqtt cameraOk inputs with
  | RunOutcome.cameraFailure => 0
  | RunOutcome.finished s => if s.crashed then 1 else 0

/-! ## The GPS background thread and shutdown cleanup (lines 177-187 and
lines 402-416) -/

/-- Run-scoped flags: the closure variable `gps_thread_running` guarding the
background thread's loop, and the peripherals the `finally` block releases. -/
structure ProcFlags where
  gps_thread_running : Bool
  gps_serial_open : Bool
  mqtt_connected : Bool
  camera_open : Bool
deriving DecidableEq

/-- Flags after a successful `Starting` phase with GPS and MQTT enabled:
the background thread was started with `gps_thread_running = True`
(lines 179-187). -/
def startedFlags : ProcFlags :=
  { gps_thread_running := true, gps_serial_open := true,
    mqtt_connected := true, camera_open := true }

/-- The cleanup the `finally` block performs (lines 402-416): `cap.release()`,
`mqtt_client.loop_stop()` / `disconnect()`, `gps_reader.close()`,
`cleanup_leds()`.  No statement in `run_inference` ever assigns
`gps_thread_running = False`; the thread was created with `daemon=True` and
is reaped only by process teardown. -/
def shutdownCleanup (s : ProcFlags) : ProcFlags :=
  { s with camera_open := false, mqtt_connected := false, gps_serial_open := false }

/-- Loop guard of `gps_background_reader` (line 182): the thread terminates
on its own only once `gps_thread_running` is cleared. -/
def gpsThreadStops (s : ProcFlags) : Bool := !s.gps_thread_running

/-! ## Predicates and concrete inputs used by the theorems below -/

/-- Every logged/published event carries a label from `VALID_CLASSES`. -/
def validEvents (l : List DetectionInfo) : Bool :=
  l.all fun e => decide (e.cls ∈ VALID_CLASSES)

/-- Every label in a class set is from `VALID_CLASSES`. -/
def validLabels (l : List String) : Bool :=
  l.all fun c => decide (c ∈ VALID_CLASSES)

/-- Every HIGH pin is one of the three mapped LED pins. -/
def validPins (l : List Nat) : Bool :=
  l.all fun p => decide (p ∈ LED_PINS.map Prod.snd)

/-- Invariant of the loop state: everything that escaped the filter carries a
known label, only mapped pins are HIGH, and `current_session.json` (when it
exists) holds exactly the in-memory log. -/
def GoodState (s : RunState) : Prop :=
  validEvents s.session.log = true ∧
  validEvents s.published = true ∧
  validLabels s.detected_classes = true ∧
  validPins s.leds_on = true ∧
  (s.session.file = some s.session.log ∨
    (s.session.file = none ∧ s.session.log = []))

/-- A concrete known-label detection box. -/
def normalBox : Box := { label := "cabai_normal", conf := 9/10 }

/-- A frame on which the classifier returns one `cabai_normal` box. -/
def oneNormalFrame : FrameInput :=
  { boxes := [normalBox], gps := none, elapsed := 1 }

/-- A frame with no detections, observed at positive elapsed time. -/
def quietFrame : FrameInput := { boxes := [], gps := none, elapsed := 1 }

/-- A first frame observed with zero elapsed wall-clock time (a clock of
coarse resolution, or a clock step backwards: `time.time()` is not
monotonic). -/
def zeroElapsedFrame : FrameInput := { boxes := [], gps := none, elapsed := 0 }

/-- A 20-frame run in which every inference yields at least one known-label
detection and the 20th inference yields two. -/
def twoAtSampleInputs : List FrameInput :=
  List.replicate 19 oneNormalFrame ++
    [{ boxes := [{ label := "cabai_normal", conf := 9/10 },
                 { label := "lalat_buah", conf := 3/5 }],
       gps := none, elapsed := 20 }]

/-- A concrete sampled event. -/
def sampleEvent : DetectionInfo :=
  { cls := "cabai_normal", confidence := 9/10, location := none }

end ChiliPi

namespace GpsParser

/-! ## Embedding of `src/gps/gps_parser.py` (`GPSReader`) -/

/-- Python truthiness of an optional number: `None` and `0` are falsy. -/
def truthyQ : Option ℚ → Bool
  | none => false
  | some x => !(x = 0 : Bool)

/-- Python `x if x else d` for an optional number. -/
def pyOrQ (x : Option ℚ) (d : ℚ) : ℚ :=
  if truthyQ x then x.getD d else d

/-- Python `x if x else d` for an optional count (`None` and `0` are falsy). -/
def pyOrN (x : Option Nat) (d : Nat) : Nat :=
  match x with
  | none => d
  | some n => if n = 0 then d else n

/-- The mutable position cache of `GPSReader` (fields set in `__init__`,
lines 11-15): all-`none`/zero until a fix is cached. -/
structure GpsCache where
  current_lat : Option ℚ
  current_lon : Option ℚ
  current_alt : Option ℚ
  satellites : Nat
  fix_quality : Nat
deriving DecidableEq

/-- Cache state right after `__init__`. -/
def initCache : GpsCache :=
  { current_lat := none, current_lon := none, current_alt := none,
    satellites := 0, fix_quality := 0 }

/-- The fields `read_gps_data` reads off a parsed `$..GGA` message. -/
structure GgaMsg where
  latitude : Option ℚ
  longitude : Option ℚ
  altitude : Option ℚ
  num_sats : Option Nat
  gps_qual : Option Nat
deriving DecidableEq

/-- What one call to `read_gps_data` encounters on the serial port. -/
inductive GpsReadInput where
  | noData : GpsReadInput           -- `in_waiting == 0`
  | otherSentence : GpsReadInput    -- line is not `$GPGGA` / `$GNGGA`
  | parseFailure : GpsReadInput     -- `pynmea2.ParseError`
  | ioError : GpsReadInput          -- the outer `except Exception` path
  | gga : GgaMsg → GpsReadInput     -- a parsed GGA sentence
deriving DecidableEq

/-- The five cache assignments of the success branch of `read_gps_data`
(lines 44-48), in program order.  They are separate Python statements with no
lock around them: a concurrent reader can run between any two. -/
def fixAssignments (msg : GgaMsg) : List (GpsCache → GpsCache) :=
  [ fun s => { s with current_lat := msg.latitude },
    fun s => { s with current_lon := msg.longitude },
    fun s => { s with current_alt := some (pyOrQ msg.altitude 0) },
    fun s => { s with satellites := pyOrN msg.num_sats 0 },
    fun s => { s with fix_quality := pyOrN msg.gps_qual 0 } ]

/-- Sequential application of a prefix of the assignment statements. -/
def applyAll (fs : List (GpsCache → GpsCache)) (s : GpsCache) : GpsCache :=
  fs.foldl (fun st f => f st) s

/-- `read_gps_data` (lines 30-63) as a cache transformer, also returning the
dict it would return (modelled as the post-update cache snapshot; `None`
otherwise).  Every failure path — closed port, no waiting data, a non-GGA
sentence, a parse error, an I/O error, or a GGA fix whose latitude or
longitude is falsy — leaves the cache untouched and returns `None`. -/
def read_gps_data (serialOpen : Bool) (s : GpsCache) (inp : GpsReadInput) :
    GpsCache × Option GpsCache :=
  if !serialOpen then (s, none)
  else
    match inp with
    | GpsReadInput.gga msg =>
        if truthyQ msg.latitude && truthyQ msg.longitude then
          let s' := applyAll (fixAssignments msg) s
          (s', some s')
        else (s, none)
    | _ => (s, none)

/-- The snapshot `get_current_position` returns (lines 65-75). -/
structure Position where
  latitude : ℚ
  longitude : ℚ
  altitude : Option ℚ
  satellites : Nat
  fix_quality : Nat
deriving DecidableEq

/-- `get_current_position` (lines 65-75): the last known position, or `None`
whenever the cached latitude or longitude is falsy (`None` — or `0`, since
Python's `and` tests truthiness, not presence). -/
def get_current_position (s : GpsCache) : Option Position :=
  if truthyQ s.current_lat && truthyQ s.current_lon then
    some { latitude := s.current_lat.getD 0, longitude := s.current_lon.getD 0,
           altitude := s.current_alt, satellites := s.satellites,
           fix_quality := s.fix_quality }
  else none

/-- A cached valid fix F1. -/
def f1Cache : GpsCache :=
  { current_lat := some 1, current_lon := some 2, current_alt := some 10,
    satellites := 4, fix_quality := 1 }

/-- A later valid fix F2 arriving as a parsed GGA sentence. -/
def f2Msg : GgaMsg :=
  { latitude := some 3, longitude := some 4, altitude := some 11,
    num_sats := some 5, gps_qual := some 2 }

/-- The position a reader observes when it runs between the `current_lat`
and `current_lon` assignments of `read_gps_data` while F2 replaces F1:
F2's latitude paired with F1's longitude. -/
def hybridPos : Position :=
  { latitude := 3, longitude := 2, altitude := some 10,
    satellites := 4, fix_quality := 1 }

/-- A cache whose latitude is exactly zero. -/
def zeroLatCache : GpsCache :=
  { current_lat := some 0, current_lon := some 2, current_alt := none,
    satellites := 3, fix_quality := 1 }

/-- A GGA message whose longitude is exactly zero. -/
def zeroLonMsg : GgaMsg :=
  { latitude := some 5, longitude := some 0, altitude := none,
    num_sats := none, gps_qual := none }

end GpsParser

/-!
# Helper lemmas
-/

namespace ChiliPi

theorem processBox_session (m : Bool) (gc : Option GpsCoords) (s : RunState) (b : Box) :
    (processBox m gc s b).session =
      if b.label ∈ VALID_CLASSES ∧ s.inference_count % 20 = 0
      then sessionAppend s.session { cls := b.label, confidence := b.conf, location := gc }
      else s.session := by
  by_cases hv : b.label ∈ VALID_CLASSES
  · by_cases hg : s.inference_count % 20 = 0 <;> simp [processBox, hv, hg]
  · simp [processBox, hv]

theorem processBox_published (m : Bool) (gc : Option GpsCoords) (s : RunState) (b : Box) :
    (processBox m gc s b).published =
      if b.label ∈ VALID_CLASSES ∧ s.inference_count % 20 = 0 ∧ m = true
      then s.published ++ [{ cls := b.label, confidence := b.conf, location := gc }]
      else s.published := by
  by_cases hv : b.label ∈ VALID_CLASSES
  · by_cases hg : s.inference_count % 20 = 0
    · by_cases hm : m = true <;> simp [processBox, hv, hg, hm]
    · simp [processBox, hv, hg]
  · simp [processBox, hv]

theorem processBox_detected (m : Bool) (gc : Option GpsCoords) (s : RunState) (b : Box) :
    (processBox m gc s b).detected_classes =
      if b.label ∈ VALID_CLASSES then addClass s.detected_classes b.label
      else s.detected_classes := by
  by_cases hv : b.label ∈ VALID_CLASSES
  · by_cases hg : s.inference_count % 20 = 0 <;> simp [processBox, hv, hg]
  · simp [processBox, hv]

theorem processBox_preserved (m : Bool) (gc : Option GpsCoords) (s : RunState) (b : Box) :
    (processBox m gc s b).frame_count = s.frame_count ∧
    (processBox m gc s b).inference_count = s.inference_count ∧
    (processBox m gc s b).predict_calls = s.predict_calls ∧
    (processBox m gc s b).fps_display = s.fps_display ∧
    (processBox m gc s b).crashed = s.crashed ∧
    (processBox m gc s b).leds_on = s.leds_on := by
  by_cases hv : b.label ∈ VALID_CLASSES
  · by_cases hg : s.inference_count % 20 = 0 <;> simp [processBox, hv, hg]
  · simp [processBox, hv]

theorem processBox_log_length (m : Bool) (gc : Option GpsCoords) (s : RunState) (b : Box) :
    (processBox m gc s b).session.log.length =
      s.session.log.length +
        (if b.label ∈ VALID_CLASSES ∧ s.inference_count % 20 = 0 then 1 else 0) := by
  rw [processBox_session]
  by_cases h : b.label ∈ VALID_CLASSES ∧ s.inference_count % 20 = 0 <;>
    simp [h, sessionAppend]

theorem foldlBox_preserved (m : Bool) (gc : Option GpsCoords) (bs : List Box) (s : RunState) :
    (bs.foldl (processBox m gc) s).frame_count = s.frame_count ∧
    (bs.foldl (processBox m gc) s).inference_count = s.inference_count ∧
    (bs.foldl (processBox m gc) s).predict_calls = s.predict_calls ∧
    (bs.foldl (processBox m gc) s).fps_display = s.fps_display ∧
    (bs.foldl (processBox m gc) s).crashed = s.crashed ∧
    (bs.foldl (processBox m gc) s).leds_on = s.leds_on := by
  induction bs generalizing s with
  | nil => exact ⟨rfl, rfl, rfl, rfl, rfl, rfl⟩
  | cons b bs ih =>
    obtain ⟨h1, h2, h3, h4, h5, h6⟩ := processBox_preserved m gc s b
    obtain ⟨g1, g2, g3, g4, g5, g6⟩ := ih (processBox m gc s b)
    simp only [List.foldl_cons]
    exact ⟨g1.trans h1, g2.trans h2, g3.trans h3, g4.trans h4, g5.trans h5, g6.trans h6⟩

theorem foldlBox_log_length (m : Bool) (gc : Option GpsCoords) (bs : List Box) (s : RunState) :
    (bs.foldl (processBox m gc) s).session.log.length =
      s.session.log.length +
        (if s.inference_count % 20 = 0
         then bs.countP (fun b => decide (b.label ∈ VALID_CLASSES)) else 0) := by
  induction bs generalizing s with
  | nil => simp
  | cons b bs ih =>
    simp only [List.foldl_cons]
    rw [ih (processBox m gc s b), (processBox_preserved m gc s b).2.1,
        processBox_log_length]
    by_cases hg : s.inference_count % 20 = 0
    · by_cases hv : b.label ∈ VALID_CLASSES <;>
        (simp [hg, hv, List.countP_cons]; try omega)
    · simp [hg]

end ChiliPi

namespace ChiliPi

theorem statsStage_eq (s : RunState) :
    statsStage s =
      if 5 * s.fps_display = 0 then { s with crashed := true } else s := by
  by_cases h : (5 : ℚ) * s.fps_display = 0 <;> simp [statsStage, pyMod, h]

theorem statsStage_preserved (s : RunState) :
    (statsStage s).frame_count = s.frame_count ∧
    (statsStage s).inference_count = s.inference_count ∧
    (statsStage s).predict_calls = s.predict_calls ∧
    (statsStage s).session = s.session ∧
    (statsStage s).published = s.published ∧
    (statsStage s).detected_classes = s.detected_classes ∧
    (statsStage s).leds_on = s.leds_on := by
  rw [statsStage_eq]
  by_cases h : (5 : ℚ) * s.fps_display = 0 <;> simp [h]

theorem fpsStage_preserved (s : RunState) (e : ℚ) :
    (fpsStage s e).frame_count = s.frame_count ∧
    (fpsStage s e).inference_count = s.inference_count ∧
    (fpsStage s e).predict_calls = s.predict_calls ∧
    (fpsStage s e).session = s.session ∧
    (fpsStage s e).published = s.published ∧
    (fpsStage s e).detected_classes = s.detected_classes ∧
    (fpsStage s e).leds_on = s.leds_on ∧
    (fpsStage s e).crashed = s.crashed := by
  by_cases h : (0 : ℚ) < e <;> simp [fpsStage, h]

theorem fanoutBoxes_fields (m : Bool) (s : RunState) (inp : FrameInput) :
    (fanoutBoxes m s inp).frame_count = s.frame_count ∧
    (fanoutBoxes m s inp).inference_count = s.inference_count ∧
    (fanoutBoxes m s inp).predict_calls = s.predict_calls ∧
    (fanoutBoxes m s inp).fps_display = s.fps_display ∧
    (fanoutBoxes m s inp).crashed = s.crashed ∧
    (fanoutBoxes m s inp).leds_on = s.leds_on ∧
    (fanoutBoxes m s inp).session.log.length =
      s.session.log.length +
        (if s.inference_count % 20 = 0
         then inp.boxes.countP (fun b => decide (b.label ∈ VALID_CLASSES)) else 0) := by
  unfold fanoutBoxes
  obtain ⟨h1, h2, h3, h4, h5, h6⟩ :=
    foldlBox_preserved m inp.gps inp.boxes { s with detected_classes := [] }
  refine ⟨h1, h2, h3, h4, h5, h6, ?_⟩
  simpa using foldlBox_log_length m inp.gps inp.boxes { s with detected_classes := [] }

theorem tail_fields (s3 : RunState) (m : Bool) (inp : FrameInput) :
    (statsStage (ledStage (fanoutBoxes m s3 inp))).frame_count = s3.frame_count ∧
    (statsStage (ledStage (fanoutBoxes m s3 inp))).inference_count = s3.inference_count ∧
    (statsStage (ledStage (fanoutBoxes m s3 inp))).predict_calls = s3.predict_calls ∧
    (statsStage (ledStage (fanoutBoxes m s3 inp))).session.log.length =
      s3.session.log.length +
        (if s3.inference_count % 20 = 0
         then inp.boxes.countP (fun b => decide (b.label ∈ VALID_CLASSES)) else 0) := by
  obtain ⟨f1, f2, f3, _, _, _, f7⟩ := fanoutBoxes_fields m s3 inp
  obtain ⟨t1, t2, t3, t4, _, _, _⟩ := statsStage_preserved (ledStage (fanoutBoxes m s3 inp))
  refine ⟨?_, ?_, ?_, ?_⟩
  · rw [t1]; simpa [ledStage] using f1
  · rw [t2]; simpa [ledStage] using f2
  · rw [t3]; simpa [ledStage] using f3
  · rw [t4]; simpa [ledStage] using f7

theorem processFrame_crash_eq (N : Nat) (m : Bool) (s : RunState) (inp : FrameInput)
    (h : s.crashed = true) : processFrame N m s inp = s := by
  simp [processFrame, h]

theorem processFrame_skip_eq (N : Nat) (m : Bool) (s : RunState) (inp : FrameInput)
    (hc : s.crashed = false) (hp : (s.frame_count + 1) % N ≠ 0) :
    processFrame N m s inp = { s with frame_count := s.frame_count + 1 } := by
  simp [processFrame, hc, hp]

theorem processFrame_proc_eq (N : Nat) (m : Bool) (s : RunState) (inp : FrameInput)
    (hc : s.crashed = false) (hp : (s.frame_count + 1) % N = 0) :
    processFrame N m s inp =
      statsStage (ledStage (fanoutBoxes m
        (fpsStage (inferStage { s with frame_count := s.frame_count + 1 }) inp.elapsed)
        inp)) := by
  simp [processFrame, hc, hp]

theorem processFrame_proc_fields (N : Nat) (m : Bool) (s : RunState) (inp : FrameInput)
    (hc : s.crashed = false) (hp : (s.frame_count + 1) % N = 0) :
    (processFrame N m s inp).frame_count = s.frame_count + 1 ∧
    (processFrame N m s inp).inference_count = s.inference_count + 1 ∧
    (processFrame N m s inp).predict_calls = s.predict_calls + 1 ∧
    (processFrame N m s inp).session.log.length =
      s.session.log.length +
        (if (s.inference_count + 1) % 20 = 0
         then inp.boxes.countP (fun b => decide (b.label ∈ VALID_CLASSES)) else 0) := by
  rw [processFrame_proc_eq N m s inp hc hp]
  obtain ⟨t1, t2, t3, t4⟩ :=
    tail_fields (fpsStage (inferStage { s with frame_count := s.frame_count + 1 })
      inp.elapsed) m inp
  obtain ⟨p1, p2, p3, p4, _, _, _, _⟩ :=
    fpsStage_preserved (inferStage { s with frame_count := s.frame_count + 1 }) inp.elapsed
  refine ⟨?_, ?_, ?_, ?_⟩
  · rw [t1, p1]; rfl
  · rw [t2, p2]; rfl
  · rw [t3, p3]; rfl
  · rw [t4, p4, p2]; rfl

end ChiliPi

namespace ChiliPi

theorem succ_div_ite (k n : Nat) :
    (n + 1) / k = n / k + if (n + 1) % k = 0 then 1 else 0 := by
  rw [Nat.succ_div]
  by_cases h : k ∣ n + 1
  · have hz := (Nat.dvd_iff_mod_eq_zero).mp h
    simp [h, hz]
  · have hz : ¬(n + 1) % k = 0 := fun hz => h ((Nat.dvd_iff_mod_eq_zero).mpr hz)
    simp [h, hz]

theorem processFrame_predict_iff (N : Nat) (m : Bool) (s : RunState) (inp : FrameInput)
    (hc : s.crashed = false) :
    ((processFrame N m s inp).predict_calls = s.predict_calls + 1 ↔
      (s.frame_count + 1) % N = 0) := by
  by_cases hp : (s.frame_count + 1) % N = 0
  · obtain ⟨_, _, t3, _⟩ := processFrame_proc_fields N m s inp hc hp
    simp [t3, hp]
  · rw [processFrame_skip_eq N m s inp hc hp]
    simp only [hp, iff_false]
    omega

theorem processBox_append_iff (m : Bool) (gc : Option GpsCoords) (s : RunState) (b : Box)
    (hb : b.label ∈ VALID_CLASSES) :
    ((processBox m gc s b).session.log.length = s.session.log.length + 1 ↔
      s.inference_count % 20 = 0) := by
  rw [processBox_log_length]
  by_cases hg : s.inference_count % 20 = 0
  · simp [hb, hg]
  · simp only [hg, iff_false, hb, true_and, if_false]
    omega

theorem processFrame_inv1 (N : Nat) (m : Bool) (s : RunState) (inp : FrameInput)
    (h : s.predict_calls = s.frame_count / N) :
    (processFrame N m s inp).predict_calls = (processFrame N m s inp).frame_count / N := by
  by_cases hc : s.crashed = true
  · rw [processFrame_crash_eq N m s inp hc]; exact h
  · have hc' : s.crashed = false := by simpa using hc
    by_cases hp : (s.frame_count + 1) % N = 0
    · obtain ⟨t1, _, t3, _⟩ := processFrame_proc_fields N m s inp hc' hp
      rw [t1, t3, h, succ_div_ite]
      simp [hp]
    · rw [processFrame_skip_eq N m s inp hc' hp]
      simp only []
      rw [h, succ_div_ite]
      simp [hp]

theorem processFrame_inv2 (N : Nat) (m : Bool) (s : RunState) (inp : FrameInput)
    (hcount : inp.boxes.countP (fun b => decide (b.label ∈ VALID_CLASSES)) = 1)
    (h : s.session.log.length = s.inference_count / 20) :
    (processFrame N m s inp).session.log.length =
      (processFrame N m s inp).inference_count / 20 := by
  by_cases hc : s.crashed = true
  · rw [processFrame_crash_eq N m s inp hc]; exact h
  · have hc' : s.crashed = false := by simpa using hc
    by_cases hp : (s.frame_count + 1) % N = 0
    · obtain ⟨_, t2, _, t4⟩ := processFrame_proc_fields N m s inp hc' hp
      rw [t2, t4, hcount, h, succ_div_ite]
    · rw [processFrame_skip_eq N m s inp hc' hp]
      exact h

theorem runFoldl_inv1 (N : Nat) (m : Bool) (inputs : List FrameInput) (s : RunState)
    (h : s.predict_calls = s.frame_count / N) :
    (inputs.foldl (processFrame N m) s).predict_calls =
      (inputs.foldl (processFrame N m) s).frame_count / N := by
  induction inputs generalizing s with
  | nil => exact h
  | cons i is ih =>
    simp only [List.foldl_cons]
    exact ih (processFrame N m s i) (processFrame_inv1 N m s i h)

theorem runFoldl_inv2 (N : Nat) (m : Bool) (inputs : List FrameInput) (s : RunState)
    (hall : inputs.all
      (fun inp => inp.boxes.countP (fun b => decide (b.label ∈ VALID_CLASSES)) == 1) = true)
    (h : s.session.log.length = s.inference_count / 20) :
    (inputs.foldl (processFrame N m) s).session.log.length =
      (inputs.foldl (processFrame N m) s).inference_count / 20 := by
  induction inputs generalizing s with
  | nil => exact h
  | cons i is ih =>
    rw [List.all_cons, Bool.and_eq_true] at hall
    simp only [List.foldl_cons]
    exact ih (processFrame N m s i)
      hall.2 (processFrame_inv2 N m s i (by simpa using hall.1) h)

end ChiliPi

namespace ChiliPi

theorem lookup_mem_snd {ps : List (String × Nat)} {c : String} {p : Nat}
    (h : ps.lookup c = some p) : p ∈ ps.map Prod.snd := by
  induction ps with
  | nil => simp [List.lookup] at h
  | cons kv ps ih =>
    obtain ⟨k, v⟩ := kv
    simp only [List.lookup] at h
    split at h
    · cases h
      simp
    · simpa using Or.inr (by simpa using ih h)

theorem control_leds_valid (l : List String) : validPins (control_leds l) = true := by
  induction l with
  | nil => rfl
  | cons c l ih =>
    simp only [control_leds, List.filterMap_cons] at ih ⊢
    cases hc : LED_PINS.lookup c with
    | none => exact ih
    | some p =>
      have hp := lookup_mem_snd hc
      simpa [validPins, hp] using ih

theorem addClass_valid (l : List String) (c : String) (hl : validLabels l = true)
    (hc : c ∈ VALID_CLASSES) : validLabels (addClass l c) = true := by
  unfold addClass
  by_cases h : c ∈ l
  · simpa [h] using hl
  · simp only [validLabels, List.all_append, Bool.and_eq_true] at hl ⊢
    simp [h, hl, hc]

theorem goodState_init : GoodState initState := by
  refine ⟨rfl, rfl, rfl, rfl, Or.inr ⟨rfl, rfl⟩⟩

theorem processBox_good (m : Bool) (gc : Option GpsCoords) (s : RunState) (b : Box)
    (h : GoodState s) : GoodState (processBox m gc s b) := by
  obtain ⟨h1, h2, h3, h4, h5⟩ := h
  by_cases hv : b.label ∈ VALID_CLASSES
  · obtain ⟨_, _, _, _, _, hleds⟩ := processBox_preserved m gc s b
    refine ⟨?_, ?_, ?_, ?_, ?_⟩
    · rw [processBox_session]
      by_cases hg : s.inference_count % 20 = 0
      · simp only [validEvents] at h1 ⊢
        simp [hv, hg, sessionAppend, List.all_append, h1]
      · simpa [hv, hg] using h1
    · rw [processBox_published]
      by_cases hgm : s.inference_count % 20 = 0 ∧ m = true
      · simp only [validEvents] at h2 ⊢
        simp [hv, hgm, List.all_append, h2]
      · simp only [validEvents] at h2 ⊢
        simp only [hv, true_and, hgm, if_false]
        exact h2
    · rw [processBox_detected]
      simp only [hv, if_true]
      exact addClass_valid s.detected_classes b.label h3 hv
    · rw [hleds]; exact h4
    · rw [processBox_session]
      by_cases hg : s.inference_count % 20 = 0
      · simp [hv, hg, sessionAppend]
      · simpa [hv, hg] using h5
  · simp only [processBox, hv, if_false]
    exact ⟨h1, h2, h3, h4, h5⟩

theorem foldlBox_good (m : Bool) (gc : Option GpsCoords) (bs : List Box) (s : RunState)
    (h : GoodState s) : GoodState (bs.foldl (processBox m gc) s) := by
  induction bs generalizing s with
  | nil => exact h
  | cons b bs ih =>
    simp only [List.foldl_cons]
    exact ih (processBox m gc s b) (processBox_good m gc s b h)

theorem fanoutBoxes_good (m : Bool) (s : RunState) (inp : FrameInput)
    (h : GoodState s) : GoodState (fanoutBoxes m s inp) := by
  unfold fanoutBoxes
  exact foldlBox_good m inp.gps inp.boxes _ ⟨h.1, h.2.1, rfl, h.2.2.2.1, h.2.2.2.2⟩

theorem ledStage_good (s : RunState) (h : GoodState s) : GoodState (ledStage s) := by
  exact ⟨h.1, h.2.1, h.2.2.1, control_leds_valid s.detected_classes, h.2.2.2.2⟩

theorem statsStage_good (s : RunState) (h : GoodState s) : GoodState (statsStage s) := by
  rw [statsStage_eq]
  by_cases hz : (5 : ℚ) * s.fps_display = 0
  · simpa [hz] using h
  · simpa [hz] using h

theorem processFrame_good (N : Nat) (m : Bool) (s : RunState) (inp : FrameInput)
    (h : GoodState s) : GoodState (processFrame N m s inp) := by
  by_cases hc : s.crashed = true
  · rw [processFrame_crash_eq N m s inp hc]; exact h
  · have hc' : s.crashed = false := by simpa using hc
    by_cases hp : (s.frame_count + 1) % N = 0
    · rw [processFrame_proc_eq N m s inp hc' hp]
      apply statsStage_good
      apply ledStage_good
      apply fanoutBoxes_good
      have hfps : GoodState (fpsStage (inferStage { s with frame_count := s.frame_count + 1 }) inp.elapsed) := by
        unfold fpsStage
        by_cases he : (0 : ℚ) < inp.elapsed
        · simp only [he, if_true]
          exact ⟨h.1, h.2.1, h.2.2.1, h.2.2.2.1, h.2.2.2.2⟩
        · simp only [he, if_false]
          exact ⟨h.1, h.2.1, h.2.2.1, h.2.2.2.1, h.2.2.2.2⟩
      exact hfps
    · rw [processFrame_skip_eq N m s inp hc' hp]
      exact ⟨h.1, h.2.1, h.2.2.1, h.2.2.2.1, h.2.2.2.2⟩

theorem runFoldl_good (N : Nat) (m : Bool) (inputs : List FrameInput) (s : RunState)
    (h : GoodState s) : GoodState (inputs.foldl (processFrame N m) s) := by
  induction inputs generalizing s with
  | nil => exact h
  | cons i is ih =>
    simp only [List.foldl_cons]
    exact ih (processFrame N m s i) (processFrame_good N m s i h)

theorem runFrames_good (N : Nat) (m : Bool) (inputs : List FrameInput) :
    GoodState (runFrames N m inputs) :=
  runFoldl_good N m inputs initState goodState_init

theorem foldl_sessionAppend_spec (events : List DetectionInfo) (s : SessionState) :
    (events.foldl sessionAppend s).log = s.log ++ events ∧
    (events ≠ [] → (events.foldl sessionAppend s).file = some (s.log ++ events)) := by
  induction events generalizing s with
  | nil => simp
  | cons e es ih =>
    simp only [List.foldl_cons]
    obtain ⟨h1, h2⟩ := ih (sessionAppend s e)
    constructor
    · rw [h1]; simp [sessionAppend]
    · intro _
      cases es with
      | nil => simp [sessionAppend]
      | cons e2 es2 =>
        rw [h2 (by simp)]
        simp [sessionAppend]

end ChiliPi

namespace ChiliPi

theorem decValRev_decDigitsRev (n : Nat) : decValRev (decDigitsRev n) = n := by
  induction n using Nat.strong_induction_on with
  | _ n ih =>
    match n with
    | 0 => simp [decDigitsRev, decValRev]
    | Nat.succ m =>
      rw [decDigitsRev]
      rw [decValRev]
      rw [ih ((m + 1) / 10) (Nat.div_lt_self (Nat.succ_pos m) (by omega))]
      exact Nat.mod_add_div (m + 1) 10

theorem decDigitsRev_injective : Function.Injective decDigitsRev := by
  intro a b h
  have ha := decValRev_decDigitsRev a
  have hb := decValRev_decDigitsRev b
  rw [← ha, ← hb, h]

theorem decDigitsRev_lt_ten (n : Nat) : ∀ d ∈ decDigitsRev n, d < 10 := by
  induction n using Nat.strong_induction_on with
  | _ n ih =>
    match n with
    | 0 => intro d hd; simp [decDigitsRev] at hd
    | Nat.succ m =>
      intro d hd
      rw [decDigitsRev] at hd
      rcases List.mem_cons.mp hd with h | h
      · subst h; exact Nat.mod_lt _ (by omega)
      · exact ih ((m + 1) / 10) (Nat.div_lt_self (Nat.succ_pos m) (by omega)) d h

theorem digitChar_inj_lt {a b : Nat} (ha : a < 10) (hb : b < 10)
    (h : Nat.digitChar a = Nat.digitChar b) : a = b := by
  have key : ∀ x y : Fin 10, Nat.digitChar x.val = Nat.digitChar y.val → x = y := by decide
  have := key ⟨a, ha⟩ ⟨b, hb⟩ h
  exact congrArg Fin.val this

theorem map_digitChar_inj : ∀ (xs ys : List Nat), (∀ d ∈ xs, d < 10) → (∀ d ∈ ys, d < 10) →
    xs.map Nat.digitChar = ys.map Nat.digitChar → xs = ys
  | [], [], _, _, _ => rfl
  | [], _ :: _, _, _, h => by simp at h
  | _ :: _, [], _, _, h => by simp at h
  | x :: xs, y :: ys, hx, hy, h => by
    simp only [List.map_cons, List.cons.injEq] at h
    have h1 : x = y :=
      digitChar_inj_lt (hx x (List.mem_cons_self x xs)) (hy y (List.mem_cons_self y ys)) h.1
    have h2 : xs = ys :=
      map_digitChar_inj xs ys (fun d hd => hx d (List.mem_cons_of_mem x hd))
        (fun d hd => hy d (List.mem_cons_of_mem y hd)) h.2
    rw [h1, h2]

theorem natDecimal_injective : Function.Injective natDecimal := by
  intro a b h
  unfold natDecimal at h
  by_cases ha : a = 0
  · by_cases hb : b = 0
    · rw [ha, hb]
    · exfalso
      simp only [ha, if_true, hb, if_false] at h
      have hdata : ['0'] = ((decDigitsRev b).reverse).map Nat.digitChar := by
        have := congrArg String.data h
        simpa using this
      have hmap0 : ((decDigitsRev b).reverse).map Nat.digitChar =
          ([0] : List Nat).map Nat.digitChar := by
        rw [← hdata]; rfl
      have h0 : (decDigitsRev b).reverse = [0] := by
        apply map_digitChar_inj _ _ _ _ hmap0
        · intro d hd
          exact decDigitsRev_lt_ten b d (List.mem_reverse.mp hd)
        · intro d hd
          simp at hd
          omega
      have hb0 : decDigitsRev b = [0] := by
        have := congrArg List.reverse h0
        simpa using this
      have := decValRev_decDigitsRev b
      rw [hb0] at this
      simp [decValRev] at this
      exact hb this.symm
  · by_cases hb : b = 0
    · exfalso
      simp only [ha, if_false, hb, if_true] at h
      have hdata : ((decDigitsRev a).reverse).map Nat.digitChar = ['0'] := by
        have := congrArg String.data h
        simpa using this
      have hmap0 : ((decDigitsRev a).reverse).map Nat.digitChar =
          ([0] : List Nat).map Nat.digitChar := by
        rw [hdata]; rfl
      have h0 : (decDigitsRev a).reverse = [0] := by
        apply map_digitChar_inj _ _ _ _ hmap0
        · intro d hd
          exact decDigitsRev_lt_ten a d (List.mem_reverse.mp hd)
        · intro d hd
          simp at hd
          omega
      have ha0 : decDigitsRev a = [0] := by
        have := congrArg List.reverse h0
        simpa using this
      have := decValRev_decDigitsRev a
      rw [ha0] at this
      simp [decValRev] at this
      exact ha this.symm
    · simp only [ha, if_false, hb, if_false] at h
      have hdata := congrArg String.data h
      simp only [] at hdata
      have hmap : ((decDigitsRev a).reverse).map Nat.digitChar =
          ((decDigitsRev b).reverse).map Nat.digitChar := by
        injection h
      have hrev : (decDigitsRev a).reverse = (decDigitsRev b).reverse := by
        apply map_digitChar_inj _ _ _ _ hmap
        · intro d hd
          exact decDigitsRev_lt_ten a d (List.mem_reverse.mp hd)
        · intro d hd
          exact decDigitsRev_lt_ten b d (List.mem_reverse.mp hd)
      exact decDigitsRev_injective (List.reverse_injective hrev)

theorem archiveFileName_injective : Function.Injective archiveFileName := by
  intro a b h
  unfold archiveFileName at h
  have hdata := congrArg String.data h
  rw [String.data_append, String.data_append, String.data_append, String.data_append] at hdata
  have h1 := List.append_cancel_right hdata
  have h2 := List.append_cancel_left h1
  apply natDecimal_injective
  have : (natDecimal a) = String.mk (natDecimal a).data := rfl
  rw [this, h2]

end ChiliPi

/-!
# Claim theorems
-/

namespace ChiliPi

/-- C1: for every `frameSkip = N ≥ 1`, inference runs on a frame iff the
advanced frame counter satisfies `frameCounter mod N == 0` (frames counted
from 1); across a whole run the classifier (`model.predict`) is invoked
exactly `⌊M / N⌋` times, where `M` is the number of frames the loop counted;
and `frameSkip = 1` processes every frame. -/
theorem frameskip_classifier_invocations (N : Nat) (_hN : 1 ≤ N) (m : Bool)
    (inputs : List FrameInput) (s : RunState) (inp : FrameInput)
    (hc : s.crashed = false) :
    ((processFrame N m s inp).predict_calls = s.predict_calls + 1 ↔
        (s.frame_count + 1) % N = 0) ∧
    (runFrames N m inputs).predict_calls = (runFrames N m inputs).frame_count / N ∧
    (N = 1 → (runFrames N m inputs).predict_calls = (runFrames N m inputs).frame_count) := by
  have h2 : (runFrames N m inputs).predict_calls = (runFrames N m inputs).frame_count / N :=
    runFoldl_inv1 N m inputs initState (Nat.zero_div N).symm
  refine ⟨processFrame_predict_iff N m s inp hc, h2, ?_⟩
  intro hN1
  rw [h2, hN1, Nat.div_one]

/-- Witness for C1: `frameSkip = 2` over three frames, stepping the gate once
from the initial state. -/
theorem frameskip_classifier_invocations_witness :
    ((1 : Nat) ≤ 2 ∧ initState.crashed = false) ∧
    (((processFrame 2 false initState quietFrame).predict_calls =
          initState.predict_calls + 1 ↔ (initState.frame_count + 1) % 2 = 0) ∧
      (runFrames 2 false [quietFrame, quietFrame, quietFrame]).predict_calls =
        (runFrames 2 false [quietFrame, quietFrame, quietFrame]).frame_count / 2 ∧
      ((2 : Nat) = 1 →
        (runFrames 2 false [quietFrame, quietFrame, quietFrame]).predict_calls =
          (runFrames 2 false [quietFrame, quietFrame, quietFrame]).frame_count)) :=
  ⟨⟨by decide, rfl⟩,
   frameskip_classifier_invocations 2 (by decide) false
     [quietFrame, quietFrame, quietFrame] initState quietFrame rfl⟩

end ChiliPi

namespace ChiliPi

section
attribute [local semireducible] Rat.mul Rat.add Rat.sub Rat.inv

/-- C2 counterexample: a `frameSkip = 1` run with 20 inference invocations,
each producing at least one known-label detection; the 20th produces two, and
the code appends one event per known-label detection at the sampling boundary,
so 2 DetectionEvents are created, not `⌊20 / 20⌋ = 1`. -/
theorem sample_gate_event_count_cex :
    (runFrames 1 false twoAtSampleInputs).inference_count = 20 ∧
    (twoAtSampleInputs.all fun inp =>
        inp.boxes.any fun b => decide (b.label ∈ VALID_CLASSES)) = true ∧
    (runFrames 1 false twoAtSampleInputs).session.log.length = 2 ∧
    ¬((runFrames 1 false twoAtSampleInputs).session.log.length = 20 / 20) := by
  decide

end

/-- C2 (amended): a DetectionEvent is appended iff `inferenceCounter mod 20 == 0`,
one event per known-label detection at the sampling boundary; hence across a
run whose inferences each produce exactly one known-label detection, exactly
`⌊I / 20⌋` DetectionEvents are appended to the session log for `I` inference
invocations. -/
theorem sample_gate_event_count (N : Nat) (m : Bool) (inputs : List FrameInput)
    (hall : inputs.all (fun inp =>
        inp.boxes.countP (fun b => decide (b.label ∈ VALID_CLASSES)) == 1) = true)
    (s : RunState) (gc : Option GpsCoords) (b : Box) (hb : b.label ∈ VALID_CLASSES) :
    ((processBox m gc s b).session.log.length = s.session.log.length + 1 ↔
        s.inference_count % 20 = 0) ∧
    (runFrames N m inputs).session.log.length =
      (runFrames N m inputs).inference_count / 20 := by
  exact ⟨processBox_append_iff m gc s b hb,
    runFoldl_inv2 N m inputs initState hall (Nat.zero_div 20).symm⟩

/-- Witness for C2: a single frame with exactly one known-label box. -/
theorem sample_gate_event_count_witness :
    (([oneNormalFrame].all (fun inp =>
        inp.boxes.countP (fun b => decide (b.label ∈ VALID_CLASSES)) == 1) = true) ∧
      normalBox.label ∈ VALID_CLASSES) ∧
    (((processBox false none initState normalBox).session.log.length =
          initState.session.log.length + 1 ↔ initState.inference_count % 20 = 0) ∧
      (runFrames 1 false [oneNormalFrame]).session.log.length =
        (runFrames 1 false [oneNormalFrame]).inference_count / 20) :=
  ⟨⟨by decide, by decide⟩,
   sample_gate_event_count 1 false [oneNormalFrame] (by decide) initState none
     normalBox (by decide)⟩

/-- C3: detections whose label is outside the known label set never escape:
in every run — whatever extra labels the classifier emits — every event in the
in-memory log, every event in the persisted `current_session.json`, every
published event, every applied detected class and every HIGH LED pin comes
from `VALID_CLASSES` / the `LED_PINS` map. -/
theorem unknown_labels_never_escape (N : Nat) (m : Bool) (inputs : List FrameInput) :
    validEvents (runFrames N m inputs).session.log = true ∧
    validEvents ((runFrames N m inputs).session.file.getD []) = true ∧
    validEvents (runFrames N m inputs).published = true ∧
    validLabels (runFrames N m inputs).detected_classes = true ∧
    validPins (runFrames N m inputs).leds_on = true := by
  obtain ⟨h1, h2, h3, h4, h5⟩ := runFrames_good N m inputs
  refine ⟨h1, ?_, h2, h3, h4⟩
  rcases h5 with h | ⟨hf, _⟩
  · rw [h]; simpa using h1
  · rw [hf]; rfl

/-- C5: SessionStore append is monotonic and serializes the whole log: each
append, within the same call, appends to the in-memory ordered log and
overwrites the persisted file with the full accumulated log; after `n ≥ 1`
appends from a fresh store the file holds exactly those `n` events in creation
order; and in every run the persisted file is either absent (no event sampled
yet) or exactly the full in-memory log. -/
theorem session_store_monotonic :
    (∀ (s : SessionState) (info : DetectionInfo),
        sessionAppend s info =
          { log := s.log ++ [info], file := some (s.log ++ [info]) }) ∧
    (∀ events : List DetectionInfo, events ≠ [] →
        events.foldl sessionAppend { log := [], file := none } =
          { log := events, file := some events }) ∧
    (∀ (N : Nat) (m : Bool) (inputs : List FrameInput),
        (runFrames N m inputs).session.file = some (runFrames N m inputs).session.log ∨
        ((runFrames N m inputs).session.file = none ∧
          (runFrames N m inputs).session.log = [])) := by
  refine ⟨fun s info => rfl, ?_, fun N m inputs => (runFrames_good N m inputs).2.2.2.2⟩
  intro events hne
  obtain ⟨h1, h2⟩ := foldl_sessionAppend_spec events { log := [], file := none }
  have hl : (events.foldl sessionAppend { log := [], file := none }).log = events := by
    simpa using h1
  have hff : (events.foldl sessionAppend { log := [], file := none }).file =
      some events := by
    simpa using h2 hne
  calc events.foldl sessionAppend { log := [], file := none }
      = { log := (events.foldl sessionAppend { log := [], file := none }).log,
          file := (events.foldl sessionAppend { log := [], file := none }).file } := rfl
    _ = { log := events, file := some events } := by rw [hl, hff]

/-- Witness for C5: one append from a fresh store. -/
theorem session_store_monotonic_witness :
    ([sampleEvent] ≠ ([] : List DetectionInfo)) ∧
    [sampleEvent].foldl sessionAppend { log := [], file := none } =
      { log := [sampleEvent], file := some [sampleEvent] } :=
  ⟨by decide, session_store_monotonic.2.1 [sampleEvent] (by decide)⟩

/-- C6 counterexample: a run that reaches shutdown with an empty detection log
performs no shutdown write at all — `if detections_log:` (line 381) guards
both the `current_session.json` rewrite and the archival backup. -/
theorem shutdown_write_skipped_cex :
    shutdownWrites [] 1728000000 = { current := none, archive := none } := rfl

/-- C6 (amended): for every run reaching shutdown with a non-empty session
log, the process performs one additional durable write of the full log to
both `current_session.json` and the archive `detections_<t>.json` named by
the integer shutdown timestamp `t`; archives of runs ending at distinct
timestamps never collide (two runs ending within the same second would). -/
theorem shutdown_final_write (log : List DetectionInfo) (t t' : Nat)
    (h : log ≠ []) (ht : t ≠ t') :
    shutdownWrites log t =
      { current := some log, archive := some (archiveFileName t, log) } ∧
    archiveFileName t ≠ archiveFileName t' := by
  refine ⟨?_, fun hc => ht (archiveFileName_injective hc)⟩
  simp [shutdownWrites, h]

/-- Witness for C6: a one-event log archived at two distinct timestamps. -/
theorem shutdown_final_write_witness :
    (([sampleEvent] : List DetectionInfo) ≠ [] ∧ (1728000000 : Nat) ≠ 1728000001) ∧
    (shutdownWrites [sampleEvent] 1728000000 =
        { current := some [sampleEvent],
          archive := some (archiveFileName 1728000000, [sampleEvent]) } ∧
      archiveFileName 1728000000 ≠ archiveFileName 1728000001) :=
  ⟨⟨by decide, by decide⟩,
   shutdown_final_write [sampleEvent] 1728000000 1728000001 (by decide) (by decide)⟩

/-- C7 counterexample: when camera acquisition fails during `Starting`,
`run_inference` returns after LED cleanup and `main` returns normally — the
process exit code is 0, not non-zero. -/
theorem camera_failure_exit_cex :
    run_inference 1 false false [] = RunOutcome.cameraFailure ∧
    mainExitCode 1 false false [] = 0 :=
  ⟨rfl, rfl⟩

/-- C7 (amended): the process exits with code 0 on a normal transition to
Stopped, and it also exits with code 0 when Frame Source (camera) acquisition
fails during Starting — the failure is reported on stdout only; no path sets
a non-zero exit status. -/
theorem exit_code_zero (N : Nat) (m : Bool) (inputs : List FrameInput)
    (h : (runFrames N m inputs).crashed = false) :
    mainExitCode N m true inputs = 0 ∧ mainExitCode N m false inputs = 0 := by
  constructor
  · simp [mainExitCode, run_inference, h]
  · rfl

/-- Witness for C7: the empty run does not crash and exits 0 either way. -/
theorem exit_code_zero_witness :
    (runFrames 1 false []).crashed = false ∧
    (mainExitCode 1 false true [] = 0 ∧ mainExitCode 1 false false [] = 0) :=
  ⟨rfl, exit_code_zero 1 false [] rfl⟩

/-- C8 counterexample: after the whole shutdown cleanup has run (camera
released, MQTT disconnected, GPS serial closed), `gps_thread_running` is still
`True`: the GPS background thread has observed no stop signal and has not
terminated when `Stopped` is reached. -/
theorem gps_thread_outlives_run_cex :
    (shutdownCleanup startedFlags).gps_thread_running = true ∧
    gpsThreadStops (shutdownCleanup startedFlags) = false ∧
    (shutdownCleanup startedFlags).camera_open = false ∧
    (shutdownCleanup startedFlags).gps_serial_open = false :=
  ⟨rfl, rfl, rfl, rfl⟩

/-- C8 (amended): a stop signal ends the main loop and the `finally` block
releases the camera, the MQTT client and the GPS serial port, but no statement
ever clears `gps_thread_running`: the GPS background thread (a daemon) never
observes the stop signal, its loop guard is unaffected by shutdown, and it is
reaped only by process teardown. -/
theorem shutdown_never_stops_gps_thread (s : ProcFlags) :
    (shutdownCleanup s).gps_thread_running = s.gps_thread_running ∧
    (shutdownCleanup s).camera_open = false ∧
    (shutdownCleanup s).mqtt_connected = false ∧
    (shutdownCleanup s).gps_serial_open = false ∧
    gpsThreadStops (shutdownCleanup s) = gpsThreadStops s :=
  ⟨rfl, rfl, rfl, rfl, rfl⟩

section
attribute [local semireducible] Rat.mul Rat.add Rat.sub Rat.inv

/-- C9: the "print stats every 5 seconds" check divides by zero on an
execution whose first processed frame observes zero elapsed time: then
`fps_display` is still `0` and line 348 evaluates
`inference_count % (5 * fps_display)` with divisor `0` — the modulo is not
guarded, and the resulting `ZeroDivisionError` is uncaught. -/
theorem stats_check_division_by_zero :
    (runFrames 1 false [zeroElapsedFrame]).fps_display = 0 ∧
    (runFrames 1 false [zeroElapsedFrame]).inference_count = 1 ∧
    pyMod 1 (5 * (runFrames 1 false [zeroElapsedFrame]).fps_display) =
      Except.error "ZeroDivisionError" ∧
    (runFrames 1 false [zeroElapsedFrame]).crashed = true := by
  refine ⟨by decide, by decide, rfl, by decide⟩

end

end ChiliPi

namespace GpsParser

/-- C4: evaluation at the failing interleaving.  Stickiness holds — every
failure path of `read_gps_data` leaves the cached fix F1 readable — and a
complete update replaces every field with F2's values; but the five cache
assignments are separate unsynchronized Python statements, and a
`get_current_position` that runs between the latitude and longitude
assignments observes the hybrid (F2.latitude, F1.longitude), which matches
neither F1 nor F2: the replacement is not atomic for concurrent readers. -/
theorem gps_cache_sticky_but_update_not_atomic :
    (read_gps_data true f1Cache GpsReadInput.parseFailure = (f1Cache, none) ∧
      read_gps_data true f1Cache GpsReadInput.noData = (f1Cache, none) ∧
      read_gps_data true f1Cache GpsReadInput.ioError = (f1Cache, none) ∧
      get_current_position f1Cache =
        some { latitude := 1, longitude := 2, altitude := some 10,
               satellites := 4, fix_quality := 1 }) ∧
    ((read_gps_data true f1Cache (GpsReadInput.gga f2Msg)).1 =
      { current_lat := some 3, current_lon := some 4, current_alt := some 11,
        satellites := 5, fix_quality := 2 }) ∧
    (get_current_position (applyAll ((fixAssignments f2Msg).take 1) f1Cache) =
        some hybridPos ∧
      some hybridPos ≠ get_current_position f1Cache ∧
      some hybridPos ≠
        get_current_position ((read_gps_data true f1Cache (GpsReadInput.gga f2Msg)).1)) := by
  decide

/-- C10: a position fix whose latitude or longitude is exactly `0` (or `None`)
is treated as "no fix" at the public interface: `read_gps_data` never caches
such a parsed fix (the guard `if msg.latitude and msg.longitude` tests Python
truthiness) and returns `None`, and `get_current_position` reports `None`
whenever the cached latitude or longitude is `0` or `None`. -/
theorem zero_coordinate_is_no_fix :
    (∀ (op : Bool) (s : GpsCache) (msg : GgaMsg),
        (msg.latitude = some 0 ∨ msg.latitude = none ∨
          msg.longitude = some 0 ∨ msg.longitude = none) →
        read_gps_data op s (GpsReadInput.gga msg) = (s, none)) ∧
    (∀ s : GpsCache,
        (s.current_lat = some 0 ∨ s.current_lat = none ∨
          s.current_lon = some 0 ∨ s.current_lon = none) →
        get_current_position s = none) := by
  constructor
  · intro op s msg hmsg
    unfold read_gps_data
    cases op
    · rfl
    · have hfalse : (truthyQ msg.latitude && truthyQ msg.longitude) = false := by
        rcases hmsg with h | h | h | h <;> simp [truthyQ, h]
      simp [hfalse]
  · intro s hs
    unfold get_current_position
    have hfalse : (truthyQ s.current_lat && truthyQ s.current_lon) = false := by
      rcases hs with h | h | h | h <;> simp [truthyQ, h]
    simp [hfalse]

/-- Witness for C10: a message with zero longitude is not cached; a cache with
zero latitude reports no position. -/
theorem zero_coordinate_is_no_fix_witness :
    (zeroLonMsg.latitude = some 0 ∨ zeroLonMsg.latitude = none ∨
      zeroLonMsg.longitude = some 0 ∨ zeroLonMsg.longitude = none) ∧
    read_gps_data true initCache (GpsReadInput.gga zeroLonMsg) = (initCache, none) ∧
    (zeroLatCache.current_lat = some 0 ∨ zeroLatCache.current_lat = none ∨
      zeroLatCache.current_lon = some 0 ∨ zeroLatCache.current_lon = none) ∧
    get_current_position zeroLatCache = none :=
  ⟨Or.inr (Or.inr (Or.inl rfl)),
   zero_coordinate_is_no_fix.1 true initCache zeroLonMsg (Or.inr (Or.inr (Or.inl rfl))),
   Or.inl rfl,
   zero_coordinate_is_no_fix.2 zeroLatCache (Or.inl rfl)⟩

end GpsParser
